import Mathlib

/-!
# Guile-SSH: key functions and SFTP session functions

A shallow embedding of `ssh/key-func.c` and `libguile-ssh/sftp-session-func.c`.

Every Scheme-visible procedure of the two files is a function in the monad `M`,
which threads an explicit `Runtime` (the trace of native calls and allocations,
the dynwind context stack and the set of live temporary buffers) and can end in
a raised Guile error.  Native libssh calls are answered by an oracle `Native`.
-/

namespace GuileSSH

/-! ## Data model -/

/-- Session smob data (`session-type.h`): the native session handle. -/
structure session_data where
  ssh_session : Nat
deriving DecidableEq, Repr

/-- SFTP session smob data (`sftp-session-type.h`): the parent session (kept in C
as the session smob itself) and the native SFTP handle. -/
structure sftp_session_data where
  session : session_data
  sftp_session : Nat
deriving DecidableEq, Repr

/-- The representation tags of a key that `key-func.c` uses. -/
inductive KEY_TYPE where
  | KEY_TYPE_PUBLIC
  | KEY_TYPE_PUBLIC_STR
  | KEY_TYPE_PRIVATE
deriving DecidableEq, Repr

export KEY_TYPE (KEY_TYPE_PUBLIC KEY_TYPE_PUBLIC_STR KEY_TYPE_PRIVATE)

/-- A libssh `ssh_string`: `none` is the NULL pointer, `some bs` a binary string. -/
abbrev ssh_string := Option (List Nat)

/-- Key smob data (`key-type.h`).  A native handle is `none` when it is NULL;
a field that a constructor does not assign keeps the zero value. -/
structure key_data where
  key_type : KEY_TYPE
  ssh_private_key : Option Nat := none
  ssh_public_key : Option Nat := none
  ssh_public_key_str_key : ssh_string := none
  ssh_public_key_str_key_type : Int := 0
  is_to_be_freed : Nat := 0
deriving DecidableEq, Repr

/-- Scheme values, as far as the two files look at them. -/
inductive SCM where
  | SCM_BOOL_F
  | SCM_BOOL_T
  | SCM_UNDEFINED
  | SCM_EOL
  | string (s : String)
  | symbol (s : String)
  | integer (i : Int)
  | fraction (num : Int) (den : Nat)
  | real (mantissa : Int) (exponent : Int)
  | pair (car cdr : SCM)
  | session_smob (d : session_data)
  | sftp_session_smob (d : sftp_session_data)
  | key_smob (d : key_data)
deriving DecidableEq, Repr

export SCM (SCM_BOOL_F SCM_BOOL_T SCM_UNDEFINED SCM_EOL)

/-- Guile errors raised by the two files. -/
inductive Error where
  | wrong_type_arg (subr : Option String) (pos : Nat) (bad : SCM)
  | out_of_range (subr : Option String) (bad : SCM)
  | guile_ssh_error (proc : String) (msg : String) (args : SCM)
  | unknown_constant (value : Int)
deriving DecidableEq, Repr

/-- What leaves a trace: native libssh calls, key record allocations, smob
creations and table lookups. -/
inductive Event where
  | sftp_init (sftp : Nat)
  | sftp_mkdir (sftp : Nat) (dirname : String) (mode : Nat)
  | sftp_get_error (sftp : Nat)
  | privatekey_from_file (session : Nat) (filename : String) (type : Int)
      (passphrase : Option String)
  | publickey_from_privatekey (key : Option Nat)
  | publickey_from_file (session : Nat) (filename : String)
  | publickey_to_string (key : Option Nat)
  | ssh_string_copy (s : ssh_string)
  | scm_gc_malloc (what : String)
  | SCM_NEWSMOB (d : key_data)
  | const_lookup (value : Int)
deriving DecidableEq, Repr

/-- An unwind handler of a dynwind context: the block it releases (`none` for a
NULL pointer, which releases nothing) and whether it was registered with
`SCM_F_WIND_EXPLICITLY`. -/
structure Handler where
  addr : Option Nat
  explicitly : Bool
deriving DecidableEq, Repr

/-- The state the procedures act on. -/
structure Runtime where
  /-- The events so far, most recent first. -/
  trace : List Event := []
  /-- The dynwind context stack, innermost first; a context is its handlers. -/
  wind : List (List Handler) := []
  /-- Temporary blocks allocated and not released. -/
  live : List Nat := []
  /-- The next fresh block address. -/
  next : Nat := 0
deriving DecidableEq, Repr

/-- A temporary block together with what it holds. -/
structure Buf (α : Type) where
  addr : Nat
  val : α
deriving DecidableEq, Repr

/-- The answers of libssh. -/
structure Native where
  sftp_init : Nat → Int
  sftp_mkdir : Nat → String → Nat → Int
  sftp_get_error : Nat → Int
  privatekey_from_file : Nat → String → Int → Option String → Option Nat
  publickey_from_privatekey : Option Nat → Option Nat
  publickey_from_file : Nat → String → ssh_string × Int
  publickey_to_string : Option Nat → ssh_string

/-! ## The monad -/

/-- How a computation ends: with a value, or with a raised error; both with the
runtime at that point. -/
inductive Result (α : Type) where
  | ok (v : α) (rt : Runtime)
  | raised (e : Error) (rt : Runtime)
deriving DecidableEq, Repr

/-- Computations over the runtime that may raise. -/
def M (α : Type) : Type := Runtime → Result α

/-- Sequencing: a raise skips the rest. -/
def M.bind {α β : Type} (m : M α) (f : α → M β) : M β := fun rt =>
  match m rt with
  | .ok v rt1 => f v rt1
  | .raised e rt1 => .raised e rt1

instance : Monad M where
  pure v := fun rt => .ok v rt
  bind := M.bind

/-- A non-local exit with error `e`. -/
def raise {α : Type} (e : Error) : M α := fun rt => .raised e rt

/-- Append an event to the trace. -/
def emit (ev : Event) : M Unit := fun rt => .ok () { rt with trace := ev :: rt.trace }

/-- Allocate a fresh temporary block. -/
def malloc : M Nat := fun rt =>
  .ok rt.next { rt with live := rt.next :: rt.live, next := rt.next + 1 }

/-! ## Guile primitives -/

/-- Guile `scm_dynwind_begin (0)`: push an empty context. -/
def scm_dynwind_begin : M Unit := fun rt => .ok () { rt with wind := [] :: rt.wind }

/-- Register an unwind handler in the innermost context. -/
def scm_dynwind_unwind_handler (addr : Option Nat) (explicitly : Bool) : M Unit := fun rt =>
  match rt.wind with
  | [] => .ok () rt
  | f :: rest => .ok () { rt with wind := (⟨addr, explicitly⟩ :: f) :: rest }

/-- Guile `scm_dynwind_free`: release the block when the context is left, on
`scm_dynwind_end` too. -/
def scm_dynwind_free (addr : Option Nat) : M Unit := scm_dynwind_unwind_handler addr true

/-- Release the block a pointer names; NULL releases nothing. -/
def release (addr : Option Nat) (live : List Nat) : List Nat :=
  match addr with
  | none => live
  | some a => live.erase a

/-- Run the handlers of a context; `explicit` tells whether the context is left by
`scm_dynwind_end` (only handlers flagged `explicitly` run) or by a raise (all run). -/
def run_handlers (explicit : Bool) (hs : List Handler) (live : List Nat) : List Nat :=
  hs.foldl (fun l h => if explicit && !h.explicitly then l else release h.addr l) live

/-- Pop the innermost context and run its handlers. -/
def pop_context (explicit : Bool) (rt : Runtime) : Runtime :=
  match rt.wind with
  | [] => rt
  | f :: rest => { rt with wind := rest, live := run_handlers explicit f rt.live }

/-- Guile `scm_dynwind_end ()`. -/
def scm_dynwind_end : M Unit := fun rt => .ok () (pop_context true rt)

/-- Pop `n` contexts as a non-local exit does. -/
def unwind : Nat → Runtime → Runtime
  | 0, rt => rt
  | n + 1, rt => unwind n (pop_context false rt)

/-- The runtime a caller sees after a procedure entered at `entry` ended with `r`:
a raise leaves through every context established since entry, a return leaves
the contexts as they are. -/
def exit_runtime {α : Type} (entry : Runtime) (r : Result α) : Runtime :=
  match r with
  | .ok _ rt => rt
  | .raised _ rt => unwind (rt.wind.length - entry.wind.length) rt

/-- Guile `SCM_ASSERT (cond, arg, pos, subr)`: wrong-type-arg unless `cond`. -/
def SCM_ASSERT (cond : Bool) (arg : SCM) (pos : Nat) (subr : String) : M Unit :=
  if cond then pure () else raise (.wrong_type_arg (some subr) pos arg)

/-- Guile `scm_is_string`. -/
def scm_is_string : SCM → Bool
  | .string _ => true
  | _ => false

/-- Guile `scm_is_number`. -/
def scm_is_number : SCM → Bool
  | .integer _ => true
  | .fraction _ _ => true
  | .real _ _ => true
  | _ => false

/-- Guile `scm_to_locale_string`: a freshly allocated C copy of a Scheme string. -/
def scm_to_locale_string : SCM → M (Buf String)
  | .string s => do
    let a ← malloc
    pure ⟨a, s⟩
  | v => raise (.wrong_type_arg none 1 v)

/-- Guile `scm_to_uint32`: an exact integer in `[0, 2^32 - 1]`, else out-of-range
for an exact integer and wrong-type-arg for anything else. -/
def scm_to_uint32 : SCM → M Nat
  | .integer i =>
    if 0 ≤ i ∧ i ≤ 4294967295 then pure i.toNat else raise (.out_of_range none (.integer i))
  | v => raise (.wrong_type_arg none 0 v)

/-- Guile `scm_list_3`. -/
def scm_list_3 (a b c : SCM) : SCM := .pair a (.pair b (.pair c SCM_EOL))

/-! ## Helpers of the repository that the two files call -/

/-- Modelled from the spec: `guile_ssh_error1` (error.c, absent) is the
Error/Diagnostics Bridge; it raises a host-visible error that carries the
procedure name, the message and the offending operands, and does not return. -/
def guile_ssh_error1 {α : Type} (proc : String) (msg : String) (args : SCM) : M α :=
  raise (.guile_ssh_error proc msg args)

/-- Modelled from the spec: `_scm_to_ssh_session` (session-type.c, absent) yields
the data of a session smob; any other value is a type violation. -/
def _scm_to_ssh_session : SCM → M session_data
  | .session_smob d => pure d
  | v => raise (.wrong_type_arg none 0 v)

/-- Modelled from the spec: `_scm_to_sftp_session_data` (sftp-session-type.c,
absent) yields the data of an SFTP session smob; any other value is a type
violation. -/
def _scm_to_sftp_session_data : SCM → M sftp_session_data
  | .sftp_session_smob d => pure d
  | v => raise (.wrong_type_arg none 0 v)

/-- Modelled from the spec: `_scm_to_ssh_key` (key-type.c, absent) yields the data
of a key smob; any other value is a type violation. -/
def _scm_to_ssh_key : SCM → M key_data
  | .key_smob d => pure d
  | v => raise (.wrong_type_arg none 0 v)

/-- Modelled from the spec: `_private_key_p` (key-type.c, absent) holds of the
Private variant only. -/
def _private_key_p (key : key_data) : Bool :=
  key.key_type == KEY_TYPE_PRIVATE

/-- Modelled from the spec: `_public_key_p` (key-type.c, absent) holds of "some
public variant", Public (derived) or Public (encoded). -/
def _public_key_p (key : key_data) : Bool :=
  key.key_type == KEY_TYPE_PUBLIC || key.key_type == KEY_TYPE_PUBLIC_STR

/-- Modelled from the spec: the finalizer of a key smob (key-type.c, absent)
"must check the flag and no-op when not-owned-here"; the result tells whether it
calls the native free routine. -/
def free_key_smob (key : key_data) : Bool :=
  key.is_to_be_freed != 0

/-- An entry of a symbol table (`common.h`): a name, NULL in the sentinel, and
an integer code. -/
structure symbol_mapping where
  symbol : Option String
  value : Int
deriving DecidableEq, Repr

/-- Modelled from the spec: lookup by code (common.c, absent) "is a linear scan to
the sentinel"; `none` is a miss.  The scan stops at the first entry whose name is
NULL without comparing its code. -/
def lookup_by_code : List symbol_mapping → Int → Option String
  | [], _ => none
  | t :: rest, value =>
    match t.symbol with
    | none => none
    | some name => if t.value = value then some name else lookup_by_code rest value

/-- Modelled from the spec: lookup by name (common.c, absent), the other direction
of the same scan; `none` is a miss. -/
def lookup_by_name : List symbol_mapping → String → Option Int
  | [], _ => none
  | t :: rest, sym =>
    match t.symbol with
    | none => none
    | some name => if name = sym then some t.value else lookup_by_name rest sym

/-- Modelled from the spec: `_ssh_const_to_scm` (common.c, absent) translates a
code through the Symbol Table Mapper; "a code with no mapped symbol is itself an
error condition", raised as the unknown-constant error. -/
def _ssh_const_to_scm (types : List symbol_mapping) (value : Int) : M SCM := do
  emit (.const_lookup value)
  match lookup_by_code types value with
  | some name => pure (.symbol name)
  | none => raise (.unknown_constant value)

/-! ## libguile-ssh/sftp-session-func.c -/

/-- Scheme name of `gssh_sftp_init`. -/
def s_gssh_sftp_init : String := "%gssh-sftp-init"

/-- `%gssh-sftp-init`. -/
def gssh_sftp_init (nat : Native) (sftp_session : SCM) : M SCM := do
  let sftp_sd ← _scm_to_sftp_session_data sftp_session
  emit (.sftp_init sftp_sd.sftp_session)
  if nat.sftp_init sftp_sd.sftp_session ≠ 0 then
    guile_ssh_error1 s_gssh_sftp_init "Could not initialize the SFTP session." sftp_session
  return SCM_UNDEFINED

/-- `%gssh-sftp-get-session`. -/
def gssh_sftp_get_session (sftp_session : SCM) : M SCM := do
  let sftp_sd ← _scm_to_sftp_session_data sftp_session
  return .session_smob sftp_sd.session

/-- Scheme name of `gssh_sftp_mkdir`. -/
def s_gssh_sftp_mkdir : String := "%gssh-sftp-mkdir"

/-- `%gssh-sftp-mkdir`. -/
def gssh_sftp_mkdir (nat : Native) (sftp_session dirname mode : SCM) : M SCM := do
  let sftp_sd ← _scm_to_sftp_session_data sftp_session
  SCM_ASSERT (scm_is_string dirname) dirname 2 s_gssh_sftp_mkdir
  SCM_ASSERT (scm_is_number mode) mode 3 s_gssh_sftp_mkdir
  scm_dynwind_begin
  let c_dirname ← scm_to_locale_string dirname
  scm_dynwind_free (some c_dirname.addr)
  let c_mode ← scm_to_uint32 mode
  emit (.sftp_mkdir sftp_sd.sftp_session c_dirname.val c_mode)
  if nat.sftp_mkdir sftp_sd.sftp_session c_dirname.val c_mode ≠ 0 then
    guile_ssh_error1 s_gssh_sftp_mkdir "Could not create a directory"
      (scm_list_3 sftp_session dirname mode)
  scm_dynwind_end
  return SCM_UNDEFINED

/-- The libssh constant `SSH_FX_OK` (`libssh/sftp.h`). -/
def SSH_FX_OK : Int := 0
/-- The libssh constant `SSH_FX_EOF`. -/
def SSH_FX_EOF : Int := 1
/-- The libssh constant `SSH_FX_NO_SUCH_FILE`. -/
def SSH_FX_NO_SUCH_FILE : Int := 2
/-- The libssh constant `SSH_FX_PERMISSION_DENIED`. -/
def SSH_FX_PERMISSION_DENIED : Int := 3
/-- The libssh constant `SSH_FX_FAILURE`. -/
def SSH_FX_FAILURE : Int := 4
/-- The libssh constant `SSH_FX_BAD_MESSAGE`. -/
def SSH_FX_BAD_MESSAGE : Int := 5
/-- The libssh constant `SSH_FX_NO_CONNECTION`. -/
def SSH_FX_NO_CONNECTION : Int := 6
/-- The libssh constant `SSH_FX_CONNECTION_LOST`. -/
def SSH_FX_CONNECTION_LOST : Int := 7
/-- The libssh constant `SSH_FX_OP_UNSUPPORTED`. -/
def SSH_FX_OP_UNSUPPORTED : Int := 8
/-- The libssh constant `SSH_FX_INVALID_HANDLE`. -/
def SSH_FX_INVALID_HANDLE : Int := 9
/-- The libssh constant `SSH_FX_NO_SUCH_PATH`. -/
def SSH_FX_NO_SUCH_PATH : Int := 10
/-- The libssh constant `SSH_FX_FILE_ALREADY_EXISTS`. -/
def SSH_FX_FILE_ALREADY_EXISTS : Int := 11
/-- The libssh constant `SSH_FX_WRITE_PROTECT`. -/
def SSH_FX_WRITE_PROTECT : Int := 12
/-- The libssh constant `SSH_FX_NO_MEDIA`. -/
def SSH_FX_NO_MEDIA : Int := 13

/-- Possible SFTP return codes. -/
def sftp_return_codes : List symbol_mapping := [
  ⟨some "fx-ok",                 SSH_FX_OK⟩,
  ⟨some "fx-eof",                SSH_FX_EOF⟩,
  ⟨some "fx-no-such-file",       SSH_FX_NO_SUCH_FILE⟩,
  ⟨some "fx-permission-denied",  SSH_FX_PERMISSION_DENIED⟩,
  ⟨some "fx-failure",            SSH_FX_FAILURE⟩,
  ⟨some "fx-bad-message",        SSH_FX_BAD_MESSAGE⟩,
  ⟨some "fx-no-connection",      SSH_FX_NO_CONNECTION⟩,
  ⟨some "fx-connection-lost",    SSH_FX_CONNECTION_LOST⟩,
  ⟨some "fx-op-unsupported",     SSH_FX_OP_UNSUPPORTED⟩,
  ⟨some "fx-invalid-handle",     SSH_FX_INVALID_HANDLE⟩,
  ⟨some "fx-no-such-path",       SSH_FX_NO_SUCH_PATH⟩,
  ⟨some "fx-file-already-exist", SSH_FX_FILE_ALREADY_EXISTS⟩,
  ⟨some "fx-write-protect",      SSH_FX_WRITE_PROTECT⟩,
  ⟨some "fx-no-media",           SSH_FX_NO_MEDIA⟩,
  ⟨none,                         -1⟩
]

/-- Scheme name of `gssh_sftp_get_error`. -/
def s_gssh_sftp_get_error : String := "%gssh-sftp-get-error"

/-- `%gssh-sftp-get-error`. -/
def gssh_sftp_get_error (nat : Native) (sftp_session : SCM) : M SCM := do
  let sftp_sd ← _scm_to_sftp_session_data sftp_session
  emit (.sftp_get_error sftp_sd.sftp_session)
  let rc := nat.sftp_get_error sftp_sd.sftp_session
  if rc < 0 then
    guile_ssh_error1 s_gssh_sftp_get_error "Could not get an error code" sftp_session
  _ssh_const_to_scm sftp_return_codes rc

/-! ## ssh/key-func.c -/

/-- A freshly allocated copy of a libssh string; NULL stays NULL. -/
def new_ssh_string : ssh_string → M (Option (Buf (List Nat)))
  | none => pure none
  | some bs => do
    let a ← malloc
    pure (some ⟨a, bs⟩)

/-- The address of an optional block. -/
def ptr {α : Type} : Option (Buf α) → Option Nat
  | none => none
  | some b => some b.addr

/-- libssh `ssh_string_to_char`: a freshly allocated C copy of the bytes, NULL for
NULL. -/
def ssh_string_to_char : Option (Buf (List Nat)) → M (Option (Buf (List Nat)))
  | none => pure none
  | some s => do
    let a ← malloc
    pure (some ⟨a, s.val⟩)

/-- libssh `ssh_string_len`: the number of bytes, 0 for NULL. -/
def ssh_string_len : Option (Buf (List Nat)) → Nat
  | none => 0
  | some s => s.val.length

/-- The base64 alphabet. -/
def alphabet : List Char :=
  "ABCDEFGHIJKLMNOPQRSTUVWXYZabcdefghijklmnopqrstuvwxyz0123456789+/".toList

/-- The base64 digit of a 6-bit value. -/
def base64_digit (n : Nat) : Char := alphabet.getD (n % 64) '='

/-- The base64 text of a sequence of bytes, three bytes to four digits, padded
with `=`. -/
def base64_encode : List Nat → List Char
  | a :: b :: c :: rest =>
    base64_digit (a % 256 / 4) :: base64_digit (a % 4 * 16 + b % 256 / 16) ::
      base64_digit (b % 16 * 4 + c % 256 / 64) :: base64_digit (c % 64) :: base64_encode rest
  | [a, b] =>
    [base64_digit (a % 256 / 4), base64_digit (a % 4 * 16 + b % 256 / 16),
      base64_digit (b % 16 * 4), '=']
  | [a] => [base64_digit (a % 256 / 4), base64_digit (a % 4 * 16), '=', '=']
  | [] => []

/-- Modelled from the spec: `bin_to_base64` (base64.c, absent) "converts the
resulting binary form to a textual (base64) encoding"; it reads `len` bytes of
`source`. -/
def bin_to_base64 (source : Option (Buf (List Nat))) (len : Nat) : String :=
  match source with
  | none => String.mk (base64_encode [])
  | some s => String.mk (base64_encode (s.val.take len))

/-- Guile `scm_from_locale_string`. -/
def scm_from_locale_string (s : String) : SCM := .string s

/-- Convert a public key to SSH string.  Return newly allocated SSH string.  The
function does no checks for the key type. -/
def public_key_to_ssh_string (nat : Native) (public_key_data : key_data) :
    M (Option (Buf (List Nat))) :=
  if public_key_data.key_type = KEY_TYPE_PUBLIC then do
    emit (.publickey_to_string public_key_data.ssh_public_key)
    new_ssh_string (nat.publickey_to_string public_key_data.ssh_public_key)
  else do
    emit (.ssh_string_copy public_key_data.ssh_public_key_str_key)
    new_ssh_string public_key_data.ssh_public_key_str_key

/-- Scheme name of `guile_ssh_public_key_to_string`. -/
def s_guile_ssh_public_key_to_string : String := "public-key->string"

/-- `public-key->string`: convert SSH public key KEY to a scheme string. -/
def guile_ssh_public_key_to_string (nat : Native) (key : SCM) : M SCM := do
  let key_data ← _scm_to_ssh_key key
  scm_dynwind_begin
  SCM_ASSERT (_public_key_p key_data) key 1 s_guile_ssh_public_key_to_string
  let public_key ← public_key_to_ssh_string nat key_data
  scm_dynwind_unwind_handler (ptr public_key) true
  let key_str ← ssh_string_to_char public_key
  scm_dynwind_free (ptr key_str)
  let key_len := ssh_string_len public_key
  let ret := scm_from_locale_string (bin_to_base64 key_str key_len)
  scm_dynwind_end
  return ret

/-- Scheme name of `guile_ssh_private_key_from_file`. -/
def s_guile_ssh_private_key_from_file : String := "private-key-from-file"

/-- `private-key-from-file`: read private key from a file FILENAME. -/
def guile_ssh_private_key_from_file (nat : Native) (session filename : SCM) : M SCM := do
  let session_data ← _scm_to_ssh_session session
  let passphrase : Option String := none
  scm_dynwind_begin
  SCM_ASSERT (scm_is_string filename) filename 2 s_guile_ssh_private_key_from_file
  emit (.scm_gc_malloc "ssh key")
  let c_filename ← scm_to_locale_string filename
  scm_dynwind_free (some c_filename.addr)
  emit (.privatekey_from_file session_data.ssh_session c_filename.val 0 passphrase)
  let key_data : key_data :=
    { key_type := KEY_TYPE_PRIVATE,
      ssh_private_key :=
        nat.privatekey_from_file session_data.ssh_session c_filename.val 0 passphrase,
      is_to_be_freed := 0 }
  if key_data.ssh_private_key = none then
    return SCM_BOOL_F
  emit (.SCM_NEWSMOB key_data)
  let key_smob := SCM.key_smob key_data
  scm_dynwind_end
  return key_smob

/-- Scheme name of `guile_ssh_public_key_from_private_key`. -/
def s_guile_ssh_public_key_from_private_key : String := "private-key->public-key"

/-- `private-key->public-key`: get public key from a private key KEY. -/
def guile_ssh_public_key_from_private_key (nat : Native) (key : SCM) : M SCM := do
  let private_key_data ← _scm_to_ssh_key key
  SCM_ASSERT (_private_key_p private_key_data) key 1 s_guile_ssh_public_key_from_private_key
  emit (.scm_gc_malloc "ssh key")
  emit (.publickey_from_privatekey private_key_data.ssh_private_key)
  let public_key_data : key_data :=
    { key_type := KEY_TYPE_PUBLIC,
      ssh_public_key := nat.publickey_from_privatekey private_key_data.ssh_private_key,
      is_to_be_freed := 1 }
  if public_key_data.ssh_public_key = none then
    return SCM_BOOL_F
  emit (.SCM_NEWSMOB public_key_data)
  let smob := SCM.key_smob public_key_data
  return smob

/-- Scheme name of `guile_ssh_public_key_from_file`. -/
def s_guile_ssh_public_key_from_file : String := "public-key-from-file"

/-- `public-key-from-file`: read public key from a file FILENAME. -/
def guile_ssh_public_key_from_file (nat : Native) (session filename : SCM) : M SCM := do
  let session_data ← _scm_to_ssh_session session
  scm_dynwind_begin
  SCM_ASSERT (scm_is_string filename) filename 2 s_guile_ssh_public_key_from_file
  let c_filename ← scm_to_locale_string filename
  scm_dynwind_free (some c_filename.addr)
  emit (.publickey_from_file session_data.ssh_session c_filename.val)
  let public_key_str := (nat.publickey_from_file session_data.ssh_session c_filename.val).1
  let key_type := (nat.publickey_from_file session_data.ssh_session c_filename.val).2
  if public_key_str = none then
    return SCM_BOOL_F
  emit (.scm_gc_malloc "ssh key")
  let public_key_data : key_data :=
    { key_type := KEY_TYPE_PUBLIC_STR,
      ssh_public_key_str_key := public_key_str,
      ssh_public_key_str_key_type := key_type,
      is_to_be_freed := 0 }
  emit (.SCM_NEWSMOB public_key_data)
  let key_smob := SCM.key_smob public_key_data
  scm_dynwind_end
  return key_smob

/-! ## A concrete libssh for the worked instances -/

/-- A libssh in which SFTP handle 2 has no error state (query -1), handle 3 reports
`SSH_FX_EOF` and any other handle the unmapped code 77; `id_rsa` parses to private
key 7, whose public key is 8; `id_rsa.pub` holds the blob `77 97 110`, which is
also the serialization of key 8; every other file fails to parse. -/
def demo_native : Native where
  sftp_init := fun _ => 0
  sftp_mkdir := fun _ _ _ => 0
  sftp_get_error := fun h => if h = 2 then -1 else if h = 3 then 1 else 77
  privatekey_from_file := fun _ f _ _ => if f = "id_rsa" then some 7 else none
  publickey_from_privatekey := fun k => if k = some 7 then some 8 else none
  publickey_from_file := fun _ f =>
    if f = "id_rsa.pub" then (some [77, 97, 110], 1) else (none, 0)
  publickey_to_string := fun k => if k = some 8 then some [77, 97, 110] else none

/-- The key that `private-key->public-key` derives under `demo_native`. -/
def demo_derived_key : key_data :=
  { key_type := KEY_TYPE_PUBLIC, ssh_public_key := some 8, is_to_be_freed := 1 }

/-- The key that `public-key-from-file` reads from `id_rsa.pub` under `demo_native`. -/
def demo_encoded_key : key_data :=
  { key_type := KEY_TYPE_PUBLIC_STR, ssh_public_key_str_key := some [77, 97, 110],
    ssh_public_key_str_key_type := 1, is_to_be_freed := 0 }

/-- The key that `private-key-from-file` reads from `id_rsa` under `demo_native`. -/
def demo_private_key : key_data :=
  { key_type := KEY_TYPE_PRIVATE, ssh_private_key := some 7, is_to_be_freed := 0 }

/-! ## Lemmas on the table scans -/

/-- A scan by code misses when no named entry carries the code. -/
theorem lookup_by_code_miss (l : List symbol_mapping) (v : Int)
    (h : ∀ t ∈ l, t.symbol ≠ none → t.value ≠ v) : lookup_by_code l v = none := by
  induction l with
  | nil => rfl
  | cons t rest ih =>
    unfold lookup_by_code
    cases hs : t.symbol with
    | none => rfl
    | some name =>
      have h1 : t.value ≠ v := h t (List.mem_cons_self _ _) (by simp [hs])
      simp only [h1, if_false]
      exact ih (fun u hu => h u (List.mem_cons_of_mem _ hu))

/-- A scan by code that hits returns the name of an entry with that code. -/
theorem lookup_by_code_some (l : List symbol_mapping) (v : Int) (name : String)
    (h : lookup_by_code l v = some name) : ∃ t ∈ l, t.symbol = some name ∧ t.value = v := by
  induction l with
  | nil => simp [lookup_by_code] at h
  | cons t rest ih =>
    unfold lookup_by_code at h
    cases hs : t.symbol with
    | none => simp [hs] at h
    | some n =>
      simp only [hs] at h
      by_cases hv : t.value = v
      · simp only [hv, if_true, Option.some.injEq] at h
        exact ⟨t, List.mem_cons_self _ _, by rw [hs, h], hv⟩
      · simp only [hv, if_false] at h
        obtain ⟨u, hu, hu2⟩ := ih h
        exact ⟨u, List.mem_cons_of_mem _ hu, hu2⟩

/-- A scan by name that hits returns the code of an entry with that name. -/
theorem lookup_by_name_some (l : List symbol_mapping) (v : Int) (name : String)
    (h : lookup_by_name l name = some v) : ∃ t ∈ l, t.symbol = some name ∧ t.value = v := by
  induction l with
  | nil => simp [lookup_by_name] at h
  | cons t rest ih =>
    unfold lookup_by_name at h
    cases hs : t.symbol with
    | none => simp [hs] at h
    | some n =>
      simp only [hs] at h
      by_cases hv : n = name
      · simp only [hv, if_true, Option.some.injEq] at h
        exact ⟨t, List.mem_cons_self _ _, by rw [hs, hv], h⟩
      · simp only [hv, if_false] at h
        obtain ⟨u, hu, hu2⟩ := ih h
        exact ⟨u, List.mem_cons_of_mem _ hu, hu2⟩

/-- Every named entry of `sftp_return_codes` is found by both scans and has its code
in `0..13`. -/
theorem sftp_return_codes_entry (t : symbol_mapping) (ht : t ∈ sftp_return_codes)
    (name : String) (hs : t.symbol = some name) :
    lookup_by_code sftp_return_codes t.value = some name ∧
      lookup_by_name sftp_return_codes name = some t.value ∧ 0 ≤ t.value ∧ t.value ≤ 13 := by
  simp only [sftp_return_codes, List.mem_cons, List.mem_singleton, List.not_mem_nil,
    or_false] at ht
  rcases ht with h | h | h | h | h | h | h | h | h | h | h | h | h | h | h <;>
    subst h <;>
    simp only [Option.some.injEq, reduceCtorEq] at hs <;>
    subst hs <;>
    decide

/-! ## %gssh-sftp-get-error -/

/-- C1: for every SFTP session, when the native last-error query is negative
`%gssh-sftp-get-error` raises the guile-ssh error "Could not get an error code" with
the session as irritant, having made the query and nothing else (the trace gains the
query only, no table lookup); when it is non-negative the result is exactly what
`_ssh_const_to_scm` gives for that code over `sftp_return_codes`. -/
theorem gssh_sftp_get_error_negative_raises_else_translates (nat : Native)
    (d : sftp_session_data) (rt : Runtime) :
    (nat.sftp_get_error d.sftp_session < 0 →
      gssh_sftp_get_error nat (.sftp_session_smob d) rt =
        .raised (.guile_ssh_error "%gssh-sftp-get-error" "Could not get an error code"
            (.sftp_session_smob d))
          { rt with trace := .sftp_get_error d.sftp_session :: rt.trace }) ∧
    (0 ≤ nat.sftp_get_error d.sftp_session →
      gssh_sftp_get_error nat (.sftp_session_smob d) rt =
        _ssh_const_to_scm sftp_return_codes (nat.sftp_get_error d.sftp_session)
          { rt with trace := .sftp_get_error d.sftp_session :: rt.trace }) := by
  constructor
  · intro h
    simp [gssh_sftp_get_error, _scm_to_sftp_session_data, bind, M.bind, pure, emit, h,
      guile_ssh_error1, raise, s_gssh_sftp_get_error]
  · intro h
    have h2 : ¬ nat.sftp_get_error d.sftp_session < 0 := by omega
    simp [gssh_sftp_get_error, _scm_to_sftp_session_data, bind, M.bind, pure, emit, h2]

/-- C1 at work: handle 2 has no error state and the call raises; handle 3 reports
code 1 and the call returns the symbol `fx-eof`. -/
theorem gssh_sftp_get_error_negative_raises_else_translates_witness :
    gssh_sftp_get_error demo_native (.sftp_session_smob ⟨⟨1⟩, 2⟩) {} =
        .raised (.guile_ssh_error "%gssh-sftp-get-error" "Could not get an error code"
            (.sftp_session_smob ⟨⟨1⟩, 2⟩))
          { trace := [.sftp_get_error 2] } ∧
      gssh_sftp_get_error demo_native (.sftp_session_smob ⟨⟨1⟩, 3⟩) {} =
        .ok (.symbol "fx-eof") { trace := [.const_lookup 1, .sftp_get_error 3] } :=
  ⟨(gssh_sftp_get_error_negative_raises_else_translates demo_native ⟨⟨1⟩, 2⟩ {}).1
      (by decide),
    ((gssh_sftp_get_error_negative_raises_else_translates demo_native ⟨⟨1⟩, 3⟩ {}).2
      (by decide)).trans (by decide)⟩

/-- C2: for every SFTP session whose native last-error query gives a non-negative
code that no entry of `sftp_return_codes` carries, `%gssh-sftp-get-error` raises the
unknown-constant error for that code after one table lookup, and returns no value. -/
theorem gssh_sftp_get_error_unmapped_code_raises (nat : Native) (d : sftp_session_data)
    (rt : Runtime) (hrc : 0 ≤ nat.sftp_get_error d.sftp_session)
    (hmiss : ∀ t ∈ sftp_return_codes, t.value ≠ nat.sftp_get_error d.sftp_session) :
    gssh_sftp_get_error nat (.sftp_session_smob d) rt =
        .raised (.unknown_constant (nat.sftp_get_error d.sftp_session))
          { rt with trace := .const_lookup (nat.sftp_get_error d.sftp_session) ::
              .sftp_get_error d.sftp_session :: rt.trace } ∧
      ∀ v rt1, gssh_sftp_get_error nat (.sftp_session_smob d) rt ≠ .ok v rt1 := by
  have h2 : ¬ nat.sftp_get_error d.sftp_session < 0 := by omega
  have h3 := lookup_by_code_miss _ _ (fun t ht _ => hmiss t ht)
  have h4 : gssh_sftp_get_error nat (.sftp_session_smob d) rt =
        .raised (.unknown_constant (nat.sftp_get_error d.sftp_session))
          { rt with trace := .const_lookup (nat.sftp_get_error d.sftp_session) ::
              .sftp_get_error d.sftp_session :: rt.trace } := by
    simp [gssh_sftp_get_error, _scm_to_sftp_session_data, bind, M.bind, pure, emit, h2,
      _ssh_const_to_scm, h3, raise]
  refine ⟨h4, ?_⟩
  intro v rt1 h
  rw [h4] at h
  cases h

/-- C2 at work: handle 4 reports the unmapped code 77 and the call raises. -/
theorem gssh_sftp_get_error_unmapped_code_raises_witness :
    gssh_sftp_get_error demo_native (.sftp_session_smob ⟨⟨1⟩, 4⟩) {} =
        .raised (.unknown_constant 77) { trace := [.const_lookup 77, .sftp_get_error 4] } ∧
      ∀ v rt1, gssh_sftp_get_error demo_native (.sftp_session_smob ⟨⟨1⟩, 4⟩) {} ≠ .ok v rt1 :=
  gssh_sftp_get_error_unmapped_code_raises demo_native ⟨⟨1⟩, 4⟩ {} (by decide) (by decide)

/-! ## private-key->public-key -/

/-- C3: for every key whose tag is not Private, `private-key->public-key` raises
wrong-type-arg on argument 1 and leaves the runtime as it was: no key record was
allocated and `publickey_from_privatekey` was not called. -/
theorem public_key_from_private_key_rejects_non_private (nat : Native) (kd : key_data)
    (rt : Runtime) (h : kd.key_type ≠ KEY_TYPE_PRIVATE) :
    guile_ssh_public_key_from_private_key nat (.key_smob kd) rt =
      .raised (.wrong_type_arg (some "private-key->public-key") 1 (.key_smob kd)) rt := by
  simp [guile_ssh_public_key_from_private_key, _scm_to_ssh_key, bind, M.bind, pure,
    SCM_ASSERT, _private_key_p, h, raise, s_guile_ssh_public_key_from_private_key]

/-- C3 at work: a Public (derived) key is rejected with an empty trace. -/
theorem public_key_from_private_key_rejects_non_private_witness :
    guile_ssh_public_key_from_private_key demo_native (.key_smob demo_derived_key) {} =
      .raised (.wrong_type_arg (some "private-key->public-key") 1
        (.key_smob demo_derived_key)) {} :=
  public_key_from_private_key_rejects_non_private demo_native demo_derived_key {}
    (by decide)

/-! ## %gssh-sftp-mkdir -/

/-- C4: for every SFTP session, every text dirname and every mode that is not an
exact non-negative integer (a negative integer, a non-integer number, a non-number),
`%gssh-sftp-mkdir` raises wrong-type-arg (argument 3 for a non-number, from
`scm_to_uint32` for a number that is no exact integer) or out-of-range (a negative
integer), and the trace is unchanged: `sftp_mkdir` is never called. -/
theorem gssh_sftp_mkdir_rejects_bad_mode (nat : Native) (d : sftp_session_data)
    (dirname : String) (mode : SCM) (rt : Runtime)
    (hmode : ∀ i : Int, mode = .integer i → i < 0) :
    ∃ e rt1, gssh_sftp_mkdir nat (.sftp_session_smob d) (.string dirname) mode rt
        = .raised e rt1 ∧
      (e = .wrong_type_arg (some "%gssh-sftp-mkdir") 3 mode ∨
        e = .wrong_type_arg none 0 mode ∨ e = .out_of_range none mode) ∧
      rt1.trace = rt.trace := by
  cases mode with
  | integer i =>
    have hi : i < 0 := hmode i rfl
    have h2 : ¬ (0 ≤ i ∧ i ≤ 4294967295) := by omega
    refine ⟨.out_of_range none (.integer i),
      { rt with wind := [⟨some rt.next, true⟩] :: rt.wind, live := rt.next :: rt.live,
                next := rt.next + 1 }, ?_, Or.inr (Or.inr rfl), ?_⟩
    · simp only [gssh_sftp_mkdir, _scm_to_sftp_session_data, bind, M.bind, pure, SCM_ASSERT,
        scm_is_string, scm_is_number, raise, scm_dynwind_begin,
        scm_to_locale_string, malloc, scm_dynwind_free, scm_dynwind_unwind_handler,
        scm_to_uint32, h2, if_true, if_false]
    · rfl
  | fraction n m => exact ⟨.wrong_type_arg none 0 _, _, rfl, Or.inr (Or.inl rfl), rfl⟩
  | real n m => exact ⟨.wrong_type_arg none 0 _, _, rfl, Or.inr (Or.inl rfl), rfl⟩
  | _ => exact ⟨.wrong_type_arg (some "%gssh-sftp-mkdir") 3 _, _, rfl, Or.inl rfl, rfl⟩

/-- C4 at work: mode -1 is rejected before any native call. -/
theorem gssh_sftp_mkdir_rejects_bad_mode_witness :
    ∃ e rt1, gssh_sftp_mkdir demo_native (.sftp_session_smob ⟨⟨1⟩, 4⟩) (.string "d")
        (.integer (-1)) {} = .raised e rt1 ∧
      (e = .wrong_type_arg (some "%gssh-sftp-mkdir") 3 (.integer (-1)) ∨
        e = .wrong_type_arg none 0 (.integer (-1)) ∨ e = .out_of_range none (.integer (-1))) ∧
      rt1.trace = ({} : Runtime).trace :=
  gssh_sftp_mkdir_rejects_bad_mode demo_native ⟨⟨1⟩, 4⟩ "d" (.integer (-1)) {} (by
    intro i h
    cases h
    decide)

/-- The modes 1.5 and `#f` under C4: both raise with an empty trace. -/
theorem gssh_sftp_mkdir_rejects_fraction_and_boolean :
    gssh_sftp_mkdir demo_native (.sftp_session_smob ⟨⟨1⟩, 4⟩) (.string "d") (.real 3 (-1)) {} =
        .raised (.wrong_type_arg none 0 (.real 3 (-1)))
          { wind := [[⟨some 0, true⟩]], live := [0], next := 1 } ∧
      gssh_sftp_mkdir demo_native (.sftp_session_smob ⟨⟨1⟩, 4⟩) (.string "d") SCM_BOOL_F {} =
        .raised (.wrong_type_arg (some "%gssh-sftp-mkdir") 3 SCM_BOOL_F) {} := by
  decide

/-! ## public-key->string -/

/-- C5: for every Public (derived) key `d` and Public (encoded) key `e` such that
the native serialization of the handle of `d` is the binary string `bs` that `e`
stores, `public-key->string` returns the same text for both, the base64 text of
`bs`; the derived path calls `publickey_to_string`, the encoded path copies the
stored blob. -/
theorem public_key_to_string_representation_transparent (nat : Native) (d e : key_data)
    (bs : List Nat) (rt1 rt2 : Runtime)
    (hd : d.key_type = KEY_TYPE_PUBLIC) (he : e.key_type = KEY_TYPE_PUBLIC_STR)
    (hser : nat.publickey_to_string d.ssh_public_key = some bs)
    (hblob : e.ssh_public_key_str_key = some bs) :
    guile_ssh_public_key_to_string nat (.key_smob d) rt1 =
        .ok (.string (String.mk (base64_encode bs)))
          { rt1 with trace := .publickey_to_string d.ssh_public_key :: rt1.trace,
                     next := rt1.next + 2 } ∧
      guile_ssh_public_key_to_string nat (.key_smob e) rt2 =
        .ok (.string (String.mk (base64_encode bs)))
          { rt2 with trace := .ssh_string_copy (some bs) :: rt2.trace,
                     next := rt2.next + 2 } := by
  constructor
  · simp [guile_ssh_public_key_to_string, _scm_to_ssh_key, bind, M.bind, pure, SCM_ASSERT,
      _public_key_p, hd, scm_dynwind_begin, public_key_to_ssh_string, emit, new_ssh_string,
      hser, malloc, scm_dynwind_unwind_handler, ptr, ssh_string_to_char, scm_dynwind_free,
      ssh_string_len, scm_from_locale_string, bin_to_base64, scm_dynwind_end, pop_context,
      run_handlers, release]
  · simp [guile_ssh_public_key_to_string, _scm_to_ssh_key, bind, M.bind, pure, SCM_ASSERT,
      _public_key_p, he, scm_dynwind_begin, public_key_to_ssh_string, emit, new_ssh_string,
      hblob, malloc, scm_dynwind_unwind_handler, ptr, ssh_string_to_char, scm_dynwind_free,
      ssh_string_len, scm_from_locale_string, bin_to_base64, scm_dynwind_end, pop_context,
      run_handlers, release]

/-- C5 at work: the derived key 8 and the key read from `id_rsa.pub` both give the
text `TWFu`. -/
theorem public_key_to_string_representation_transparent_witness :
    (guile_ssh_public_key_to_string demo_native (.key_smob demo_derived_key) {} =
        .ok (.string (String.mk (base64_encode [77, 97, 110])))
          { trace := [.publickey_to_string (some 8)], next := 2 } ∧
      guile_ssh_public_key_to_string demo_native (.key_smob demo_encoded_key) {} =
        .ok (.string (String.mk (base64_encode [77, 97, 110])))
          { trace := [.ssh_string_copy (some [77, 97, 110])], next := 2 }) ∧
      String.mk (base64_encode [77, 97, 110]) = "TWFu" :=
  ⟨public_key_to_string_representation_transparent demo_native demo_derived_key
      demo_encoded_key [77, 97, 110] {} {} rfl rfl rfl rfl, by decide⟩

/-- C6: for every key tagged Private, `public-key->string` raises wrong-type-arg on
argument 1 with the trace unchanged, so neither `publickey_to_string` nor
`ssh_string_copy` was called (only the dynwind context had been opened); for every
key tagged Public (derived) or Public (encoded) it returns a string. -/
theorem public_key_to_string_requires_public_variant (nat : Native) (kd : key_data)
    (rt : Runtime) :
    (kd.key_type = KEY_TYPE_PRIVATE →
      guile_ssh_public_key_to_string nat (.key_smob kd) rt =
        .raised (.wrong_type_arg (some "public-key->string") 1 (.key_smob kd))
          { rt with wind := [] :: rt.wind }) ∧
    ((kd.key_type = KEY_TYPE_PUBLIC ∨ kd.key_type = KEY_TYPE_PUBLIC_STR) →
      ∃ s rt1, guile_ssh_public_key_to_string nat (.key_smob kd) rt = .ok (.string s) rt1) := by
  constructor
  · intro h
    simp [guile_ssh_public_key_to_string, _scm_to_ssh_key, bind, M.bind, pure, SCM_ASSERT,
      _public_key_p, h, scm_dynwind_begin, raise, s_guile_ssh_public_key_to_string]
  · intro h
    rcases h with h | h
    · cases hs : nat.publickey_to_string kd.ssh_public_key <;>
      simp [guile_ssh_public_key_to_string, _scm_to_ssh_key, bind, M.bind, pure, SCM_ASSERT,
        _public_key_p, h, scm_dynwind_begin, public_key_to_ssh_string, emit, new_ssh_string,
        hs, malloc, scm_dynwind_unwind_handler, ptr, ssh_string_to_char, scm_dynwind_free,
        ssh_string_len, scm_from_locale_string, bin_to_base64, scm_dynwind_end, pop_context,
        run_handlers, release]
    · cases hs : kd.ssh_public_key_str_key <;>
      simp [guile_ssh_public_key_to_string, _scm_to_ssh_key, bind, M.bind, pure, SCM_ASSERT,
        _public_key_p, h, scm_dynwind_begin, public_key_to_ssh_string, emit, new_ssh_string,
        hs, malloc, scm_dynwind_unwind_handler, ptr, ssh_string_to_char, scm_dynwind_free,
        ssh_string_len, scm_from_locale_string, bin_to_base64, scm_dynwind_end, pop_context,
        run_handlers, release]

/-- C6 at work: the private key 7 is rejected, the encoded key is converted. -/
theorem public_key_to_string_requires_public_variant_witness :
    guile_ssh_public_key_to_string demo_native (.key_smob demo_private_key) {} =
        .raised (.wrong_type_arg (some "public-key->string") 1 (.key_smob demo_private_key))
          { wind := [[]] } ∧
      ∃ s rt1, guile_ssh_public_key_to_string demo_native (.key_smob demo_encoded_key) {} =
        .ok (.string s) rt1 :=
  ⟨(public_key_to_string_requires_public_variant demo_native demo_private_key {}).1 rfl,
    (public_key_to_string_requires_public_variant demo_native demo_encoded_key {}).2
      (Or.inr rfl)⟩

/-! ## private-key-from-file and the ownership flags -/

/-- C7: for every session and text filename, when the native parser returns NULL
`private-key-from-file` returns `#f` without raising and without creating a key smob
(the trace gains the key record allocation and the parser call only); when the
parser returns a handle it returns a key smob wrapping exactly that handle.  In both
cases the parser is called with a NULL passphrase. -/
theorem private_key_from_file_failure_is_sentinel (nat : Native) (sd : session_data)
    (filename : String) (rt : Runtime) :
    (nat.privatekey_from_file sd.ssh_session filename 0 none = none →
      ∃ rt1, guile_ssh_private_key_from_file nat (.session_smob sd) (.string filename) rt =
          .ok SCM_BOOL_F rt1 ∧
        rt1.trace = .privatekey_from_file sd.ssh_session filename 0 none ::
          .scm_gc_malloc "ssh key" :: rt.trace) ∧
    (∀ k, nat.privatekey_from_file sd.ssh_session filename 0 none = some k →
      ∃ rt1, guile_ssh_private_key_from_file nat (.session_smob sd) (.string filename) rt =
          .ok (.key_smob { key_type := KEY_TYPE_PRIVATE, ssh_private_key := some k,
                           is_to_be_freed := 0 }) rt1 ∧
        rt1.trace = .SCM_NEWSMOB { key_type := KEY_TYPE_PRIVATE, ssh_private_key := some k,
                                   is_to_be_freed := 0 } ::
          .privatekey_from_file sd.ssh_session filename 0 none ::
          .scm_gc_malloc "ssh key" :: rt.trace) := by
  constructor
  · intro h
    simp [guile_ssh_private_key_from_file, _scm_to_ssh_session, bind, M.bind, pure,
      SCM_ASSERT, scm_is_string, scm_dynwind_begin, emit, scm_to_locale_string, malloc,
      scm_dynwind_free, scm_dynwind_unwind_handler, h]
  · intro k h
    simp [guile_ssh_private_key_from_file, _scm_to_ssh_session, bind, M.bind, pure,
      SCM_ASSERT, scm_is_string, scm_dynwind_begin, emit, scm_to_locale_string, malloc,
      scm_dynwind_free, scm_dynwind_unwind_handler, h, scm_dynwind_end, pop_context]

/-- C7 at work: `no-such-key` gives `#f`, `id_rsa` gives the key smob of handle 7. -/
theorem private_key_from_file_failure_is_sentinel_witness :
    (∃ rt1, guile_ssh_private_key_from_file demo_native (.session_smob ⟨1⟩)
          (.string "no-such-key") {} = .ok SCM_BOOL_F rt1 ∧
        rt1.trace = [.privatekey_from_file 1 "no-such-key" 0 none, .scm_gc_malloc "ssh key"]) ∧
      ∃ rt1, guile_ssh_private_key_from_file demo_native (.session_smob ⟨1⟩)
          (.string "id_rsa") {} = .ok (.key_smob demo_private_key) rt1 ∧
        rt1.trace = [.SCM_NEWSMOB demo_private_key, .privatekey_from_file 1 "id_rsa" 0 none,
          .scm_gc_malloc "ssh key"] :=
  ⟨(private_key_from_file_failure_is_sentinel demo_native ⟨1⟩ "no-such-key" {}).1
      (by decide),
    (private_key_from_file_failure_is_sentinel demo_native ⟨1⟩ "id_rsa" {}).2 7
      (by decide)⟩

/-- C8: the constructing operation fixes the ownership flag.  Whenever the native
call succeeds, `private-key-from-file` returns a key tagged Private with
`is_to_be_freed = 0`, `private-key->public-key` (on a Private key) returns a key
tagged Public (derived) with `is_to_be_freed = 1`, and `public-key-from-file` returns
a key tagged Public (encoded) that stores the native blob and key-type code
unchanged with `is_to_be_freed = 0`.  Hence every key these operations return with
tag Private or Public (encoded) has the flag 0, and the flag-checking finalizer
does not free it. -/
theorem key_constructors_set_ownership_flag (nat : Native) (sd : session_data)
    (filename : String) (priv : key_data) (rt : Runtime) :
    (∀ k, nat.privatekey_from_file sd.ssh_session filename 0 none = some k →
      ∃ kd rt1, guile_ssh_private_key_from_file nat (.session_smob sd) (.string filename) rt =
          .ok (.key_smob kd) rt1 ∧
        kd.key_type = KEY_TYPE_PRIVATE ∧ kd.ssh_private_key = some k ∧
        kd.is_to_be_freed = 0 ∧ free_key_smob kd = false) ∧
    (∀ k, priv.key_type = KEY_TYPE_PRIVATE →
      nat.publickey_from_privatekey priv.ssh_private_key = some k →
      ∃ kd rt1, guile_ssh_public_key_from_private_key nat (.key_smob priv) rt =
          .ok (.key_smob kd) rt1 ∧
        kd.key_type = KEY_TYPE_PUBLIC ∧ kd.ssh_public_key = some k ∧
        kd.is_to_be_freed = 1 ∧ free_key_smob kd = true) ∧
    (∀ blob code, nat.publickey_from_file sd.ssh_session filename = (some blob, code) →
      ∃ kd rt1, guile_ssh_public_key_from_file nat (.session_smob sd) (.string filename) rt =
          .ok (.key_smob kd) rt1 ∧
        kd.key_type = KEY_TYPE_PUBLIC_STR ∧ kd.ssh_public_key_str_key = some blob ∧
        kd.ssh_public_key_str_key_type = code ∧
        kd.is_to_be_freed = 0 ∧ free_key_smob kd = false) ∧
    (∀ kd rt1,
      (guile_ssh_private_key_from_file nat (.session_smob sd) (.string filename) rt =
          .ok (.key_smob kd) rt1 ∨
        guile_ssh_public_key_from_private_key nat (.key_smob priv) rt =
          .ok (.key_smob kd) rt1 ∨
        guile_ssh_public_key_from_file nat (.session_smob sd) (.string filename) rt =
          .ok (.key_smob kd) rt1) →
      (kd.key_type = KEY_TYPE_PRIVATE ∨ kd.key_type = KEY_TYPE_PUBLIC_STR) →
      kd.is_to_be_freed = 0 ∧ free_key_smob kd = false) := by
  refine ⟨?_, ?_, ?_, ?_⟩
  · intro k h
    refine ⟨{ key_type := KEY_TYPE_PRIVATE, ssh_private_key := some k, is_to_be_freed := 0 },
      ?_⟩
    simp [guile_ssh_private_key_from_file, _scm_to_ssh_session, bind, M.bind, pure,
      SCM_ASSERT, scm_is_string, scm_dynwind_begin, emit, scm_to_locale_string, malloc,
      scm_dynwind_free, scm_dynwind_unwind_handler, h, scm_dynwind_end, pop_context,
      free_key_smob]
  · intro k hp h
    refine ⟨{ key_type := KEY_TYPE_PUBLIC, ssh_public_key := some k, is_to_be_freed := 1 },
      ?_⟩
    simp [guile_ssh_public_key_from_private_key, _scm_to_ssh_key, bind, M.bind, pure,
      SCM_ASSERT, _private_key_p, hp, emit, h, free_key_smob]
  · intro blob code h
    refine ⟨{ key_type := KEY_TYPE_PUBLIC_STR, ssh_public_key_str_key := some blob,
              ssh_public_key_str_key_type := code, is_to_be_freed := 0 }, ?_⟩
    simp [guile_ssh_public_key_from_file, _scm_to_ssh_session, bind, M.bind, pure,
      SCM_ASSERT, scm_is_string, scm_dynwind_begin, emit, scm_to_locale_string, malloc,
      scm_dynwind_free, scm_dynwind_unwind_handler, h, scm_dynwind_end, pop_context,
      free_key_smob]
  · intro kd rt1 h htag
    rcases h with h | h | h
    · cases hk : nat.privatekey_from_file sd.ssh_session filename 0 none <;>
      simp [guile_ssh_private_key_from_file, _scm_to_ssh_session, bind, M.bind, pure,
        SCM_ASSERT, scm_is_string, scm_dynwind_begin, emit, scm_to_locale_string, malloc,
        scm_dynwind_free, scm_dynwind_unwind_handler, hk, scm_dynwind_end, pop_context] at h
      obtain ⟨h1, _⟩ := h
      subst h1
      simp [free_key_smob]
    · cases hp : priv.key_type <;>
        cases hk : nat.publickey_from_privatekey priv.ssh_private_key <;>
        simp [guile_ssh_public_key_from_private_key, _scm_to_ssh_key, bind, M.bind, pure,
          SCM_ASSERT, _private_key_p, hp, emit, hk, raise] at h
      obtain ⟨h1, _⟩ := h
      subst h1
      simp at htag
    · cases hk : (nat.publickey_from_file sd.ssh_session filename).1 <;>
        simp [guile_ssh_public_key_from_file, _scm_to_ssh_session, bind, M.bind, pure,
          SCM_ASSERT, scm_is_string, scm_dynwind_begin, emit, scm_to_locale_string, malloc,
          scm_dynwind_free, scm_dynwind_unwind_handler, hk, scm_dynwind_end, pop_context] at h
      obtain ⟨h1, _⟩ := h
      subst h1
      simp [free_key_smob]

/-- C8 at work: the three constructors under `demo_native` return the private key
(flag 0), the derived key (flag 1) and the encoded key (flag 0). -/
theorem key_constructors_set_ownership_flag_witness :
    (∃ kd rt1, guile_ssh_private_key_from_file demo_native (.session_smob ⟨1⟩)
          (.string "id_rsa") {} = .ok (.key_smob kd) rt1 ∧
        kd.key_type = KEY_TYPE_PRIVATE ∧ kd.ssh_private_key = some 7 ∧
        kd.is_to_be_freed = 0 ∧ free_key_smob kd = false) ∧
      ∃ kd rt1, guile_ssh_public_key_from_private_key demo_native
          (.key_smob demo_private_key) {} = .ok (.key_smob kd) rt1 ∧
        kd.key_type = KEY_TYPE_PUBLIC ∧ kd.ssh_public_key = some 8 ∧
        kd.is_to_be_freed = 1 ∧ free_key_smob kd = true :=
  ⟨(key_constructors_set_ownership_flag demo_native ⟨1⟩ "id_rsa" demo_private_key {}).1 7
      (by decide),
    (key_constructors_set_ownership_flag demo_native ⟨1⟩ "id_rsa" demo_private_key {}).2.1 8
      rfl (by decide)⟩

/-! ## The SFTP status table -/

/-- C9: `sftp_return_codes` lists the 14 names `fx-ok` .. `fx-no-media` against the
codes 0..13, then the sentinel (NULL, -1); no two entries share a name or a code;
for every named entry the scan by code returns its name and the scan by name its
code; the two scans are inverse to each other (name, code, name and code, name,
code round trips); and a scan by any code below 0 (the sentinel code -1 included)
or above 13 is a miss. -/
theorem sftp_return_codes_bijection :
    sftp_return_codes.map (fun t => t.symbol) =
      [some "fx-ok", some "fx-eof", some "fx-no-such-file", some "fx-permission-denied",
        some "fx-failure", some "fx-bad-message", some "fx-no-connection",
        some "fx-connection-lost", some "fx-op-unsupported", some "fx-invalid-handle",
        some "fx-no-such-path", some "fx-file-already-exist", some "fx-write-protect",
        some "fx-no-media", none] ∧
    sftp_return_codes.map (fun t => t.value) =
      [0, 1, 2, 3, 4, 5, 6, 7, 8, 9, 10, 11, 12, 13, -1] ∧
    (sftp_return_codes.map (fun t => t.symbol)).Nodup ∧
    (sftp_return_codes.map (fun t => t.value)).Nodup ∧
    (∀ t ∈ sftp_return_codes, ∀ name, t.symbol = some name →
      lookup_by_code sftp_return_codes t.value = some name ∧
      lookup_by_name sftp_return_codes name = some t.value) ∧
    (∀ name code, lookup_by_name sftp_return_codes name = some code ↔
      lookup_by_code sftp_return_codes code = some name) ∧
    (∀ code : Int, (code < 0 ∨ 13 < code) → lookup_by_code sftp_return_codes code = none) := by
  refine ⟨rfl, rfl, by decide, by decide, ?_, ?_, ?_⟩
  · intro t ht name hs
    have h := sftp_return_codes_entry t ht name hs
    exact ⟨h.1, h.2.1⟩
  · intro name code
    constructor
    · intro h
      obtain ⟨t, ht, hs, hv⟩ := lookup_by_name_some _ _ _ h
      have h2 := sftp_return_codes_entry t ht name hs
      rw [hv] at h2
      exact h2.1
    · intro h
      obtain ⟨t, ht, hs, hv⟩ := lookup_by_code_some _ _ _ h
      have h2 := sftp_return_codes_entry t ht name hs
      rw [hv] at h2
      exact h2.2.1
  · intro code h
    apply lookup_by_code_miss
    intro t ht hs
    cases hn : t.symbol with
    | none => exact absurd hn hs
    | some name =>
      have h2 := sftp_return_codes_entry t ht name hn
      omega

/-- C9 at work: the entry `fx-no-such-path` is found under code 10 and back, and the
sentinel code -1 is a miss. -/
theorem sftp_return_codes_bijection_witness :
    (lookup_by_code sftp_return_codes 10 = some "fx-no-such-path" ∧
        lookup_by_name sftp_return_codes "fx-no-such-path" = some 10) ∧
      lookup_by_code sftp_return_codes (-1) = none :=
  ⟨sftp_return_codes_bijection.2.2.2.2.1 ⟨some "fx-no-such-path", 10⟩ (by decide)
      "fx-no-such-path" rfl,
    sftp_return_codes_bijection.2.2.2.2.2.2 (-1) (Or.inl (by decide))⟩

/-! ## Dynwind contexts and temporary buffers -/

/-- On every path `%gssh-sftp-mkdir` leaves the context stack and the live temporary
buffers as they were on entry. -/
theorem gssh_sftp_mkdir_balanced (nat : Native) (sftp_session dirname mode : SCM)
    (rt : Runtime) :
    (exit_runtime rt (gssh_sftp_mkdir nat sftp_session dirname mode rt)).wind = rt.wind ∧
      (exit_runtime rt (gssh_sftp_mkdir nat sftp_session dirname mode rt)).live = rt.live := by
  cases sftp_session with
  | sftp_session_smob d =>
    cases dirname with
    | string s =>
      cases mode with
      | integer i =>
        by_cases hi : 0 ≤ i ∧ i ≤ 4294967295
        · by_cases hn : nat.sftp_mkdir d.sftp_session s i.toNat = 0 <;>
            simp [exit_runtime, gssh_sftp_mkdir, _scm_to_sftp_session_data, bind, M.bind, pure,
              SCM_ASSERT, scm_is_string, scm_is_number, raise, scm_dynwind_begin,
              scm_to_locale_string, malloc, scm_dynwind_free, scm_dynwind_unwind_handler,
              scm_to_uint32, hi, hn, emit, guile_ssh_error1, scm_dynwind_end, pop_context,
              run_handlers, release, unwind]
        · simp [exit_runtime, gssh_sftp_mkdir, _scm_to_sftp_session_data, bind, M.bind, pure,
            SCM_ASSERT, scm_is_string, scm_is_number, raise, scm_dynwind_begin,
            scm_to_locale_string, malloc, scm_dynwind_free, scm_dynwind_unwind_handler,
            scm_to_uint32, hi, pop_context, run_handlers, release, unwind]
      | _ =>
        simp [exit_runtime, gssh_sftp_mkdir, _scm_to_sftp_session_data, bind, M.bind, pure,
          SCM_ASSERT, scm_is_string, scm_is_number, raise, scm_dynwind_begin,
          scm_to_locale_string, malloc, scm_dynwind_free, scm_dynwind_unwind_handler,
          scm_to_uint32, pop_context, run_handlers, release, unwind]
    | _ =>
      simp [exit_runtime, gssh_sftp_mkdir, _scm_to_sftp_session_data, bind, M.bind, pure,
        SCM_ASSERT, scm_is_string, raise, unwind]
  | _ =>
    simp [exit_runtime, gssh_sftp_mkdir, _scm_to_sftp_session_data, bind, M.bind, raise,
      unwind]

/-- On every path `public-key->string` leaves the context stack and the live
temporary buffers as they were on entry. -/
theorem public_key_to_string_balanced (nat : Native) (key : SCM) (rt : Runtime) :
    (exit_runtime rt (guile_ssh_public_key_to_string nat key rt)).wind = rt.wind ∧
      (exit_runtime rt (guile_ssh_public_key_to_string nat key rt)).live = rt.live := by
  cases key with
  | key_smob kd =>
    cases hk : kd.key_type
    · cases hs : nat.publickey_to_string kd.ssh_public_key <;>
        simp [exit_runtime, guile_ssh_public_key_to_string, _scm_to_ssh_key, bind, M.bind,
          pure, SCM_ASSERT, _public_key_p, hk, scm_dynwind_begin, public_key_to_ssh_string,
          emit, new_ssh_string, hs, malloc, scm_dynwind_unwind_handler, ptr,
          ssh_string_to_char, scm_dynwind_free, ssh_string_len, scm_from_locale_string,
          bin_to_base64, scm_dynwind_end, pop_context, run_handlers, release]
    · cases hs : kd.ssh_public_key_str_key <;>
        simp [exit_runtime, guile_ssh_public_key_to_string, _scm_to_ssh_key, bind, M.bind,
          pure, SCM_ASSERT, _public_key_p, hk, scm_dynwind_begin, public_key_to_ssh_string,
          emit, new_ssh_string, hs, malloc, scm_dynwind_unwind_handler, ptr,
          ssh_string_to_char, scm_dynwind_free, ssh_string_len, scm_from_locale_string,
          bin_to_base64, scm_dynwind_end, pop_context, run_handlers, release]
    · simp [exit_runtime, guile_ssh_public_key_to_string, _scm_to_ssh_key, bind, M.bind,
        pure, SCM_ASSERT, _public_key_p, hk, scm_dynwind_begin, raise, unwind, pop_context,
        run_handlers]
  | _ =>
    simp [exit_runtime, guile_ssh_public_key_to_string, _scm_to_ssh_key, bind, M.bind, raise,
      unwind]

/-- Whenever the native parser returns NULL, `private-key-from-file` returns with its
dynwind context still on the stack and the filename buffer still live. -/
theorem private_key_from_file_sentinel_unbalanced (nat : Native) (sd : session_data)
    (filename : String) (rt : Runtime)
    (h : nat.privatekey_from_file sd.ssh_session filename 0 none = none) :
    (exit_runtime rt (guile_ssh_private_key_from_file nat (.session_smob sd)
        (.string filename) rt)).wind = [⟨some rt.next, true⟩] :: rt.wind ∧
      (exit_runtime rt (guile_ssh_private_key_from_file nat (.session_smob sd)
        (.string filename) rt)).live = rt.next :: rt.live := by
  simp [exit_runtime, guile_ssh_private_key_from_file, _scm_to_ssh_session, bind, M.bind, pure,
    SCM_ASSERT, scm_is_string, scm_dynwind_begin, emit, scm_to_locale_string, malloc,
    scm_dynwind_free, scm_dynwind_unwind_handler, h]

/-- Whenever the native reader returns NULL, `public-key-from-file` returns with its
dynwind context still on the stack and the filename buffer still live. -/
theorem public_key_from_file_sentinel_unbalanced (nat : Native) (sd : session_data)
    (filename : String) (rt : Runtime)
    (h : (nat.publickey_from_file sd.ssh_session filename).1 = none) :
    (exit_runtime rt (guile_ssh_public_key_from_file nat (.session_smob sd)
        (.string filename) rt)).wind = [⟨some rt.next, true⟩] :: rt.wind ∧
      (exit_runtime rt (guile_ssh_public_key_from_file nat (.session_smob sd)
        (.string filename) rt)).live = rt.next :: rt.live := by
  simp [exit_runtime, guile_ssh_public_key_from_file, _scm_to_ssh_session, bind, M.bind, pure,
    SCM_ASSERT, scm_is_string, scm_dynwind_begin, emit, scm_to_locale_string, malloc,
    scm_dynwind_free, scm_dynwind_unwind_handler, h]

/-- C10 (the code departs from it): entered with an empty context stack and no live
buffer, `private-key-from-file` and `public-key-from-file` on a file the native layer
cannot read return `#f` with one dynwind context still on the stack and the filename
buffer 0 still live: the early `return SCM_BOOL_F` skips `scm_dynwind_end`. -/
theorem key_from_file_sentinel_return_leaves_context :
    guile_ssh_private_key_from_file demo_native (.session_smob ⟨1⟩) (.string "no-such-key") {} =
        .ok SCM_BOOL_F
          { trace := [.privatekey_from_file 1 "no-such-key" 0 none, .scm_gc_malloc "ssh key"],
            wind := [[⟨some 0, true⟩]], live := [0], next := 1 } ∧
      guile_ssh_public_key_from_file demo_native (.session_smob ⟨1⟩) (.string "no-such-key") {} =
        .ok SCM_BOOL_F
          { trace := [.publickey_from_file 1 "no-such-key"],
            wind := [[⟨some 0, true⟩]], live := [0], next := 1 } ∧
      (exit_runtime {} (guile_ssh_private_key_from_file demo_native (.session_smob ⟨1⟩)
        (.string "no-such-key") {})).wind.length = 1 ∧
      (exit_runtime {} (guile_ssh_public_key_from_file demo_native (.session_smob ⟨1⟩)
        (.string "no-such-key") {})).wind.length = 1 ∧
      ({} : Runtime).wind.length = 0 := by
  decide

end GuileSSH
